import Mathlib

/-
Verification of the dental photo editor's image-analysis core.

The definitions below are a shallow embedding of the JavaScript source:
`SmartEnhancementEngine` (src/assets/js/comparison-view.js) and the
detectors `ToothDetector`, `GumDetector`, `SmileZoneClassifier`,
`PlaqueDetector`, `RestorationDetector`, `MLIntegration`
(src/assets/js/help-system.js).

Modelling conventions:
* JavaScript float64 arithmetic is modelled by exact rational arithmetic
  over `ℚ`, except where the source computes transcendental functions
  (`Math.exp`, `Math.PI`, `Math.sqrt` of non-squares), which are modelled
  over `ℝ`.
* A `Uint8ClampedArray` store is modelled by `u8` (round half to even,
  clamp to `[0, 255]`, `NaN` stored as `0`), following the ToUint8Clamp
  algorithm of the ECMAScript specification.
* A JavaScript number that may be `NaN` (arising from arithmetic on
  `undefined`) is modelled by `Option ℚ`, where `none` is `NaN`; see `JQ`.
* `Date.now()` is modelled as an explicit clock argument.
-/

namespace Dental

/-- JS `Math.round`: round half toward positive infinity, `⌊x + 1/2⌋`. -/
def jsRound (q : ℚ) : ℤ := ⌊q + 1/2⌋

/-- Truncation toward zero, as used by the JS `%` remainder operator. -/
def qtrunc (q : ℚ) : ℤ := if 0 ≤ q then ⌊q⌋ else ⌈q⌉

/-- JS remainder `a % b` (sign of the dividend): `a - b * trunc (a / b)`. -/
def jsRem (a b : ℚ) : ℚ := a - b * (qtrunc (a / b) : ℚ)

/-- Round half to even, the rounding used by `Uint8ClampedArray` stores. -/
def rhe (q : ℚ) : ℤ :=
  if q - ⌊q⌋ < 1/2 then ⌊q⌋
  else if 1/2 < q - ⌊q⌋ then ⌊q⌋ + 1
  else if Even ⌊q⌋ then ⌊q⌋ else ⌊q⌋ + 1

/-- `Uint8ClampedArray` store of a finite JS number (ToUint8Clamp). -/
def u8 (q : ℚ) : ℕ :=
  if q ≤ 0 then 0 else if 255 ≤ q then 255 else (rhe q).toNat

/-- A JS number that may be `NaN`: `none` is `NaN`, `some q` a finite value. -/
abbrev JQ : Type := Option ℚ

/-- NaN-propagating addition. -/
def jqAdd : JQ → JQ → JQ
  | some a, some b => some (a + b)
  | _, _ => none

/-- NaN-propagating subtraction. -/
def jqSub : JQ → JQ → JQ
  | some a, some b => some (a - b)
  | _, _ => none

/-- NaN-propagating multiplication (`0 * NaN` is `NaN` in JS). -/
def jqMul : JQ → JQ → JQ
  | some a, some b => some (a * b)
  | _, _ => none

/-- JS `Math.min`: `NaN` if either argument is `NaN`. -/
def jqMin : JQ → JQ → JQ
  | some a, some b => some (min a b)
  | _, _ => none

/-- JS `Math.max`: `NaN` if either argument is `NaN`. -/
def jqMax : JQ → JQ → JQ
  | some a, some b => some (max a b)
  | _, _ => none

/-- `Uint8ClampedArray` store of a possibly-NaN JS number: `NaN` stores `0`. -/
def u8J : JQ → ℕ
  | none => 0
  | some q => u8 q

/-- Rebuild a byte array of length `len` by an index-wise update.  This models
an in-place JS loop in which the value written at an index depends only on the
original array (each of the modelled loops reads a pixel's bytes and then
overwrites that same pixel, so the rebuild is observationally identical). -/
def idxMap (f : ℕ → ℕ) (len : ℕ) : List ℕ := (List.range len).map f

/-- `ImageBuffer`: width, height and a flat row-major RGBA byte list. -/
structure ImageBuffer where
  width : ℕ
  height : ℕ
  data : List ℕ
deriving DecidableEq, Repr

/-- Read a byte; JS reads of a `Uint8ClampedArray` never throw (out of range
reads yield `undefined`, which the modelled code never exercises on
well-formed buffers; `0` is used as the default). -/
def byteAt (img : ImageBuffer) (i : ℕ) : ℕ := img.data.getD i 0

/-- The `ImageData` constructor's validity requirement: the byte list has
length `4 * width * height` and is non-empty. -/
def validImageData (img : ImageBuffer) : Prop :=
  img.data.length = 4 * img.width * img.height ∧ img.data.length ≠ 0

instance (img : ImageBuffer) : Decidable (validImageData img) := by
  unfold validImageData; infer_instance

/-- Apply a per-pixel RGB transform to every pixel, leaving alpha unchanged.
Models the JS loops `for (i = 0; i < data.length; i += 4)` that read
`data[i], data[i+1], data[i+2]` and write the same three slots. -/
def mapPixels (img : ImageBuffer) (f : ℕ → ℕ → ℕ → ℕ × ℕ × ℕ) : ImageBuffer :=
  { img with
    data := idxMap (fun idx =>
      if idx % 4 = 0 then
        (f (byteAt img (4 * (idx / 4))) (byteAt img (4 * (idx / 4) + 1))
          (byteAt img (4 * (idx / 4) + 2))).1
      else if idx % 4 = 1 then
        (f (byteAt img (4 * (idx / 4))) (byteAt img (4 * (idx / 4) + 1))
          (byteAt img (4 * (idx / 4) + 2))).2.1
      else if idx % 4 = 2 then
        (f (byteAt img (4 * (idx / 4))) (byteAt img (4 * (idx / 4) + 1))
          (byteAt img (4 * (idx / 4) + 2))).2.2
      else byteAt img idx) img.data.length }

/-! ## VITA shade catalog (`SmartEnhancementEngine.loadVITAShades`) -/

/-- One entry of the VITA shade table: key of the JS object literal (`code`),
its `r`, `g`, `b` bytes, and its `name` label. -/
structure VitaShade where
  code : String
  r : ℕ
  g : ℕ
  b : ℕ
  label : String
deriving DecidableEq, Repr

/-- The static VITA shade table returned by `loadVITAShades`, in the insertion
order of the source's object literal. -/
def vitaShades : List VitaShade :=
  [⟨"A1", 255, 248, 240, "A1 - Lightest"⟩,
   ⟨"A2", 255, 245, 230, "A2 - Light"⟩,
   ⟨"A3", 255, 240, 220, "A3 - Medium"⟩,
   ⟨"A3.5", 255, 235, 210, "A3.5 - Medium Dark"⟩,
   ⟨"A4", 255, 230, 200, "A4 - Dark"⟩,
   ⟨"B1", 255, 248, 235, "B1 - Lightest"⟩,
   ⟨"B2", 255, 243, 225, "B2 - Light"⟩,
   ⟨"B3", 255, 238, 215, "B3 - Medium"⟩,
   ⟨"B4", 255, 233, 205, "B4 - Dark"⟩,
   ⟨"C1", 255, 245, 220, "C1 - Lightest"⟩,
   ⟨"C2", 255, 240, 210, "C2 - Light"⟩,
   ⟨"C3", 255, 235, 200, "C3 - Medium"⟩,
   ⟨"C4", 255, 230, 190, "C4 - Dark"⟩,
   ⟨"D1", 255, 243, 215, "D1 - Lightest"⟩,
   ⟨"D2", 255, 238, 205, "D2 - Light"⟩,
   ⟨"D3", 255, 233, 195, "D3 - Medium"⟩,
   ⟨"D4", 255, 228, 185, "D4 - Dark"⟩]

/-- Squared Euclidean RGB distance to a shade.  The source computes
`Math.sqrt(Math.pow(r - shade.r, 2) + ...)` and only ever compares these
distances with `<`; the scan below compares the squares instead, an
order-preserving change (square root is strictly monotone on nonnegatives). -/
def shadeDistSq (r g b : ℕ) (s : VitaShade) : ℤ :=
  ((r : ℤ) - s.r) * ((r : ℤ) - s.r) +
  ((g : ℤ) - s.g) * ((g : ℤ) - s.g) +
  ((b : ℤ) - s.b) * ((b : ℤ) - s.b)

/-- `findClosestVITAShade`: linear scan starting from `minDistance = Infinity`
and `closestShade = null`, keeping the entry whose distance is strictly
smaller than the best so far (first minimum wins). -/
def findClosestVITAShade (r g b : ℕ) : Option VitaShade :=
  (vitaShades.foldl
    (fun acc s =>
      match acc with
      | none => some (s, shadeDistSq r g b s)
      | some (best, d) =>
        if shadeDistSq r g b s < d then some (s, shadeDistSq r g b s)
        else some (best, d))
    none).map Prod.fst

/-! ## HSV conversion and tooth-pixel classification -/

/-- Result record of `SmartEnhancementEngine.rgbToHsv`. -/
structure Hsv where
  h : ℚ
  s : ℚ
  v : ℚ

/-- `SmartEnhancementEngine.rgbToHsv`, including the JS `%` remainder on the
red-maximum branch and the final negative-hue wrap. -/
def rgbToHsv (r g b : ℕ) : Hsv :=
  let r' : ℚ := r / 255
  let g' : ℚ := g / 255
  let b' : ℚ := b / 255
  let mx := max r' (max g' b')
  let mn := min r' (min g' b')
  let d := mx - mn
  let s := if mx = 0 then 0 else d / mx
  let v := mx
  let h0 : ℚ :=
    if d = 0 then 0
    else if mx = r' then jsRem ((g' - b') / d) 6
    else if mx = g' then (b' - r') / d + 2
    else (r' - g') / d + 4
  let h1 := h0 * 60
  ⟨if h1 < 0 then h1 + 360 else h1, s, v⟩

/-- `SmartEnhancementEngine.isToothPixel`: hue in `[20, 80]`, saturation
at most `0.3`, value in `[0.7, 1.0]`. -/
def isToothPixel (r g b : ℕ) : Prop :=
  20 ≤ (rgbToHsv r g b).h ∧ (rgbToHsv r g b).h ≤ 80 ∧
  (rgbToHsv r g b).s ≤ 3/10 ∧
  7/10 ≤ (rgbToHsv r g b).v ∧ (rgbToHsv r g b).v ≤ 1

instance (r g b : ℕ) : Decidable (isToothPixel r g b) := by
  unfold isToothPixel; infer_instance

/-! ## Shade-aware whitening (`getTargetWhitenedShade`, `applySmartWhitening`) -/

/-- The fixed whitening sequence of `getTargetWhitenedShade`. -/
def shadeOrder : List String :=
  ["A4", "A3.5", "A3", "A2", "A1", "B4", "B3", "B2", "B1",
   "C4", "C3", "C2", "C1", "D4", "D3", "D2", "D1"]

/-- `targetIndex = Math.min(currentIndex + Math.floor(factor * (len - currentIndex - 1)), len - 1)`. -/
def whiteningTargetIndex (ci : ℕ) (factor : ℚ) : ℤ :=
  min ((ci : ℤ) + ⌊factor * ((shadeOrder.length : ℤ) - ci - 1)⌋)
    ((shadeOrder.length : ℤ) - 1)

/-- `SmartEnhancementEngine.getTargetWhitenedShade`: look the current shade's
key up in `shadeOrder` (returning the input when absent, the source's
`currentIndex === -1` check), step up by `⌊factor * remaining⌋` clamped to the
last index, and return the catalog entry at the target key. -/
def getTargetWhitenedShade (cur : VitaShade) (factor : ℚ) : VitaShade :=
  if cur.code ∈ shadeOrder then
    let ci := shadeOrder.indexOf cur.code
    let ti := whiteningTargetIndex ci factor
    match shadeOrder.get? ti.toNat with
    | some key => (vitaShades.find? (fun s => s.code == key)).getD cur
    | none => cur
  else cur

/-- `SmartEnhancementEngine.interpolateColor`: per-channel
`Math.round(c1 + (c2 - c1) * factor)`. -/
def interpolateColor (r1 g1 b1 r2 g2 b2 : ℕ) (factor : ℚ) : ℤ × ℤ × ℤ :=
  (jsRound ((r1 : ℚ) + ((r2 : ℚ) - r1) * factor),
   jsRound ((g1 : ℚ) + ((g2 : ℚ) - g1) * factor),
   jsRound ((b1 : ℚ) + ((b2 : ℚ) - b1) * factor))

/-- The per-pixel body of `applySmartWhitening`'s loop at a given `strength`:
tooth-classified pixels are interpolated toward the whitening target shade
and stored through the clamped array; other pixels are untouched. -/
def whitenPixel (r g b : ℕ) (strength : ℚ) : ℕ × ℕ × ℕ :=
  let factor := strength / 100
  if isToothPixel r g b then
    match findClosestVITAShade r g b with
    | some shade =>
      let t := getTargetWhitenedShade shade factor
      let c := interpolateColor r g b t.r t.g t.b factor
      (u8 (c.1 : ℚ), u8 (c.2.1 : ℚ), u8 (c.2.2 : ℚ))
    | none => (r, g, b)
  else (r, g, b)

/-- `SmartEnhancementEngine.applySmartWhitening` (the side-effect-free
`analyzeToothShades` call of the source is dropped: its result is unused). -/
def applySmartWhitening (img : ImageBuffer) (strength : ℚ) : ImageBuffer :=
  mapPixels img (fun r g b => whitenPixel r g b strength)

/-! ## Detection result data model -/

/-- Axis-aligned bounding box of a traced contour (integer pixel coordinates). -/
structure BBox where
  minX : ℕ
  maxX : ℕ
  minY : ℕ
  maxY : ℕ
deriving DecidableEq, Repr

/-- `ToothDetector.contourToBoundary` output: contour points, bounding box
and (fractional) center. -/
structure ToothBoundary where
  points : List (ℕ × ℕ)
  boundingBox : BBox
  center : ℚ × ℚ
deriving DecidableEq, Repr

/-- `ToothDetector.detect` output. -/
structure ToothResult where
  boundaries : List ToothBoundary
  count : ℕ
  confidence : ℚ
deriving DecidableEq, Repr

/-- `GumDetector.fitGumLine` output (slope, intercept, source points). -/
structure GumLine where
  slope : ℚ
  intercept : ℚ
  points : List (ℕ × ℕ)
deriving DecidableEq, Repr

/-- `GumDetector.detect` output. -/
structure GumResult where
  line : Option GumLine
  confidence : ℚ
deriving DecidableEq, Repr

/-- A rectangle `{x, y, width, height}` of the smile-zone classifier. -/
structure Rect where
  x : ℚ
  y : ℚ
  w : ℚ
  h : ℚ
deriving DecidableEq, Repr

/-- `SmileZoneClassifier.classify` output. -/
structure SmileZones where
  anterior : Rect
  posteriorLeft : Rect
  posteriorRight : Rect
  confidence : ℚ
deriving DecidableEq, Repr

/-- A `{x, y, radius}` sample point of the plaque/restoration detectors. -/
structure SamplePoint where
  x : ℕ
  y : ℕ
  radius : ℕ
deriving DecidableEq, Repr

/-- `PlaqueDetector.detect` / `RestorationDetector.detect` output. -/
structure AreaResult where
  areas : List SamplePoint
  confidence : ℚ
deriving DecidableEq, Repr

/-- `MLIntegration.detectDentalFeatures` aggregate result. -/
structure DetectionResult where
  teeth : ToothResult
  gums : GumResult
  smileZones : SmileZones
  plaque : AreaResult
  restorations : AreaResult
  timestamp : ℕ
deriving DecidableEq, Repr

/-! ## Adaptive contrast (`createEnhancementRegions`, `applyRegionalContrast`) -/

/-- Region bounds `{minX, maxX, minY, maxY}` (fractional: the gum estimate
uses `width * 0.1` etc.). -/
structure Bounds where
  minX : ℚ
  maxX : ℚ
  minY : ℚ
  maxY : ℚ
deriving DecidableEq, Repr

/-- An enhancement region: `{type, bounds, contrastFactor}`. -/
structure Region where
  rtype : String
  bounds : Bounds
  contrastFactor : ℚ
deriving DecidableEq, Repr

/-- `SmartEnhancementEngine.estimateGumBounds`. -/
def estimateGumBounds (width height : ℕ) : Bounds :=
  ⟨(width : ℚ) * (1/10), (width : ℚ) * (9/10),
   (height : ℚ) * (6/10), (height : ℚ) * (9/10)⟩

/-- `SmartEnhancementEngine.createEnhancementRegions`: one region per detected
tooth (factor 1.2), a gum region when detection results are present (the
source tests `this.detectionResults && this.detectionResults.gums`, and the
`gums` record is always a truthy object when a detection result exists),
and the full-image background region (factor 1.0) last. -/
def createEnhancementRegions (width height : ℕ) (d : Option DetectionResult) :
    List Region :=
  (match d with
   | some det =>
     det.teeth.boundaries.map (fun t =>
       ⟨"tooth",
        ⟨(t.boundingBox.minX : ℚ), (t.boundingBox.maxX : ℚ),
         (t.boundingBox.minY : ℚ), (t.boundingBox.maxY : ℚ)⟩, 12/10⟩)
   | none => []) ++
  (match d with
   | some _ => [⟨"gums", estimateGumBounds width height, 11/10⟩]
   | none => []) ++
  [⟨"background", ⟨0, (width : ℚ), 0, (height : ℚ)⟩, 1⟩]

/-- `SmartEnhancementEngine.applyRegionalContrast`.  The source destructures
`const { minX, maxX, minY, maxY, contrastFactor } = region.bounds;` — but
`bounds` has no `contrastFactor` field, so that binding is `undefined` and
`factor = globalFactor * contrastFactor` is `NaN` (modelled by `none`).
The loop covers `⌊minY⌋ ≤ y < ⌊maxY⌋`, `⌊minX⌋ ≤ x < ⌊maxX⌋` and writes
`Math.max(0, Math.min(255, (value - 128) * (1 + factor) + 128))` to the
three color channels of each covered pixel. -/
def applyRegionalContrast (data : List ℕ) (width : ℕ) (region : Region)
    (globalFactor : ℚ) : List ℕ :=
  let contrastFactor : JQ := none
  let factor : JQ := jqMul (some globalFactor) contrastFactor
  idxMap (fun idx =>
    let old := data.getD idx 0
    let p := idx / 4
    let c := idx % 4
    let x := p % width
    let y := p / width
    if c < 3 ∧
       ⌊region.bounds.minY⌋ ≤ (y : ℤ) ∧ (y : ℤ) < ⌊region.bounds.maxY⌋ ∧
       ⌊region.bounds.minX⌋ ≤ (x : ℤ) ∧ (x : ℤ) < ⌊region.bounds.maxX⌋ then
      u8J (jqMax (some 0) (jqMin (some 255)
        (jqAdd (jqMul (jqSub (some (old : ℚ)) (some 128))
          (jqAdd (some 1) factor)) (some 128))))
    else old) data.length

/-- `SmartEnhancementEngine.applyAdaptiveContrast`: build the regions and
apply regional contrast to each in order (teeth, gums, background). -/
def applyAdaptiveContrast (img : ImageBuffer) (d : Option DetectionResult)
    (strength : ℚ) : ImageBuffer :=
  let factor := strength / 100
  { img with
    data := (createEnhancementRegions img.width img.height d).foldl
      (fun dat r => applyRegionalContrast dat img.width r factor) img.data }

/-! ## Bilateral noise reduction (`applyAdaptiveNoiseReduction`) -/

/-- Round half to even on a real number (Uint8ClampedArray store). -/
noncomputable def rheR (x : ℝ) : ℤ :=
  if x - ⌊x⌋ < 1/2 then ⌊x⌋
  else if 1/2 < x - ⌊x⌋ then ⌊x⌋ + 1
  else if Even ⌊x⌋ then ⌊x⌋ else ⌊x⌋ + 1

/-- `Uint8ClampedArray` store of a real-valued JS number. -/
noncomputable def u8R (x : ℝ) : ℕ :=
  if x ≤ 0 then 0 else if 255 ≤ x then 255 else (rheR x).toNat

/-- The 3×3 offset grid `(dy, dx)` in the iteration order of the source's
nested `for (dy) for (dx)` loops. -/
def offsets33 : List (ℤ × ℤ) :=
  [(-1, -1), (-1, 0), (-1, 1), (0, -1), (0, 0), (0, 1), (1, -1), (1, 0), (1, 1)]

/-- The bilateral-filtered value of channel byte `idx` (an interior pixel):
Gaussian spatial weight (sigma 1) times Gaussian intensity weight (sigma 30),
`weightedSum / weightSum`. -/
noncomputable def bilateralFiltered (data : List ℕ) (width : ℕ) (idx : ℕ) : ℝ :=
  let c := idx % 4
  let p := idx / 4
  let x := p % width
  let y := p / width
  let centerValue : ℝ := (data.getD idx 0 : ℝ)
  let terms := offsets33.map (fun o =>
    let nIdx := (((y : ℤ) + o.1) * width + ((x : ℤ) + o.2)) * 4 + c
    let value : ℝ := (data.getD nIdx.toNat 0 : ℝ)
    let spatialWeight := Real.exp (-(((o.2 * o.2 + o.1 * o.1 : ℤ) : ℝ)) / (2 * 1 * 1))
    let intensityWeight := Real.exp (-((value - centerValue) ^ 2) / (2 * 30 * 30))
    (value * (spatialWeight * intensityWeight), spatialWeight * intensityWeight))
  (terms.map Prod.fst).sum / (terms.map Prod.snd).sum

/-- `SmartEnhancementEngine.applyAdaptiveNoiseReduction`: blend every interior
color byte with its bilateral-filtered value by `strength / 100`; border
pixels and alpha bytes are copied unchanged. -/
noncomputable def applyAdaptiveNoiseReduction (img : ImageBuffer) (strength : ℚ) :
    ImageBuffer :=
  let factor : ℝ := ((strength / 100 : ℚ) : ℝ)
  { img with
    data := idxMap (fun idx =>
      let c := idx % 4
      let p := idx / 4
      let x := p % img.width
      let y := p / img.width
      if c < 3 ∧ 1 ≤ x ∧ x + 1 < img.width ∧ 1 ≤ y ∧ y + 1 < img.height then
        u8R ((img.data.getD idx 0 : ℝ) * (1 - factor) +
          bilateralFiltered img.data img.width idx * factor)
      else img.data.getD idx 0) img.data.length }

/-! ## Specular control (`applySmartSpecularControl`) -/

/-- The per-pixel body of `applySmartSpecularControl`'s loop: pixels with
average brightness above 200 are rescaled by
`(brightness - (brightness - 200) * reduction) / brightness` where
`reduction = (level / 100) * (brightness - 200) / 55`. -/
def specularPixel (r g b : ℕ) (level : ℚ) : ℕ × ℕ × ℕ :=
  let factor := level / 100
  let brightness : ℚ := ((r : ℚ) + g + b) / 3
  if 200 < brightness then
    let reduction := factor * (brightness - 200) / 55
    let adjustedBrightness := brightness - (brightness - 200) * reduction
    let scale := adjustedBrightness / brightness
    (u8 ((r : ℚ) * scale), u8 ((g : ℚ) * scale), u8 ((b : ℚ) * scale))
  else (r, g, b)

/-- `SmartEnhancementEngine.applySmartSpecularControl`. -/
def applySmartSpecularControl (img : ImageBuffer) (level : ℚ) : ImageBuffer :=
  mapPixels img (fun r g b => specularPixel r g b level)

/-! ## Color correction (`applyColorCorrection`) -/

/-- Per-channel histograms of `calculateHistogram`. -/
def calculateHistogram (data : List ℕ) (channel : ℕ) (value : ℕ) : ℕ :=
  ((List.range (data.length / 4)).filter
    (fun p => data.getD (4 * p + channel) 0 = value)).length

/-- `SmartEnhancementEngine.calculateWhiteBalance` throws: its local
`findGrayPoint` closure divides by `data.length / 4`, but no `data` binding
is in scope in `calculateWhiteBalance` (the `const data` of
`applyColorCorrection` is not visible there and the repository declares no
global `data`), so evaluating it raises a `ReferenceError`. -/
def calculateWhiteBalance : Except String (ℚ × ℚ × ℚ) :=
  Except.error "ReferenceError: data is not defined"

/-- `SmartEnhancementEngine.applyColorCorrection`: computes the histogram,
then calls `calculateWhiteBalance`, which throws before any gain is applied. -/
def applyColorCorrection (img : ImageBuffer) : Except String ImageBuffer :=
  calculateWhiteBalance.map (fun _ => img)

/-! ## The enhancement pipeline (`applySmartEnhancement`) -/

/-- `EnhancementOptions`: the flat options record consumed by
`applySmartEnhancement`.  Numeric knobs are `Option ℚ`, `none` being a JS
`undefined` (absent) field. -/
structure EnhanceOptions where
  smartWhitening : Bool
  whitening : Option ℚ
  adaptiveContrast : Bool
  contrast : Option ℚ
  adaptiveNoise : Bool
  noise : Option ℚ
  smartSpecular : Bool
  specular : Option ℚ
  colorCorrection : Bool
deriving DecidableEq, Repr

/-- JS comparison `options.knob > 0` (`undefined > 0` is false). -/
def optPos : Option ℚ → Prop
  | some q => 0 < q
  | none => False

instance (o : Option ℚ) : Decidable (optPos o) := by
  cases o <;> unfold optPos <;> infer_instance

/-- JS default via `||`: `options.knob || dflt` (both `undefined` and `0` are
falsy and select the default). -/
def numOr (o : Option ℚ) (dflt : ℚ) : ℚ :=
  match o with
  | some q => if q = 0 then dflt else q
  | none => dflt

/-- `SmartEnhancementEngine.applySmartEnhancement`: copy the buffer (the
`ImageData` constructor validates the dimensions), then run the five stages
in order, each behind its guard:
whitening (`options.smartWhitening || options.whitening > 0`),
contrast (`options.adaptiveContrast || options.contrast > 0`),
noise (`options.adaptiveNoise || options.noise > 0`),
specular (`options.smartSpecular || options.specular !== undefined`),
and color correction (`options.colorCorrection`). -/
noncomputable def applySmartEnhancement (img : ImageBuffer)
    (d : Option DetectionResult) (opts : EnhanceOptions) :
    Except String ImageBuffer :=
  if validImageData img then
    let s1 := if opts.smartWhitening = true ∨ optPos opts.whitening then
        applySmartWhitening img (numOr opts.whitening 50) else img
    let s2 := if opts.adaptiveContrast = true ∨ optPos opts.contrast then
        applyAdaptiveContrast s1 d (numOr opts.contrast 30) else s1
    let s3 := if opts.adaptiveNoise = true ∨ optPos opts.noise then
        applyAdaptiveNoiseReduction s2 (numOr opts.noise 40) else s2
    let s4 := if opts.smartSpecular = true ∨ opts.specular ≠ none then
        applySmartSpecularControl s3 (numOr opts.specular (-20)) else s3
    if opts.colorCorrection = true then applyColorCorrection s4 else Except.ok s4
  else Except.error "ImageData constructor: invalid dimensions"

/-- The options record built by `applySmartEnhance` (the `smartEnhance`
one-touch preset): whitening 30, contrast 25, noise 35, specular -15,
color correction on. -/
def smartEnhanceOpts : EnhanceOptions :=
  ⟨true, some 30, true, some 25, true, some 35, true, some (-15), true⟩

/-! ## Tooth detector (`ToothDetector`, help-system.js) -/

/-- A single-channel pixel map `{data, width, height}` as returned by
`convertToGrayscale` and `detectEdges`. -/
structure PixelMap where
  data : List ℕ
  width : ℕ
  height : ℕ
deriving DecidableEq, Repr

/-- `ToothDetector.convertToGrayscale`:
`gray = 0.299 r + 0.587 g + 0.114 b` per pixel, stored in a
`Uint8ClampedArray(width * height)`. -/
def convertToGrayscale (img : ImageBuffer) : PixelMap :=
  ⟨idxMap (fun p =>
      u8 ((299/1000 : ℚ) * byteAt img (4 * p) +
          (587/1000 : ℚ) * byteAt img (4 * p + 1) +
          (114/1000 : ℚ) * byteAt img (4 * p + 2)))
    (img.width * img.height),
   img.width, img.height⟩

/-- The Sobel x kernel of `ToothDetector.detectEdges`. -/
def sobelX : List ℤ := [-1, 0, 1, -2, 0, 2, -1, 0, 1]

/-- The Sobel y kernel of `ToothDetector.detectEdges`. -/
def sobelY : List ℤ := [-1, -2, -1, 0, 0, 0, 1, 2, 1]

/-- One Sobel response at interior pixel `(x, y)`: the source iterates
`ky, kx ∈ {-1, 0, 1}` with `kernelIdx = (ky+1)*3 + (kx+1)`; here the same
nine terms are summed in the same order over `List.range 9` with
`ky = k / 3 - 1`, `kx = k % 3 - 1`. -/
def sobelAt (g : PixelMap) (kernel : List ℤ) (x y : ℕ) : ℤ :=
  (List.range 9).foldl (fun (acc : ℤ) (k : ℕ) =>
    let ky : ℤ := (k : ℤ) / 3 - 1
    let kx : ℤ := (k : ℤ) % 3 - 1
    let idx := ((y : ℤ) + ky) * g.width + ((x : ℤ) + kx)
    acc + (g.data.getD idx.toNat 0 : ℤ) * kernel.getD k 0) 0

/-- `ToothDetector.detectEdges`: interior pixels whose Sobel magnitude
exceeds 50 become 255, everything else 0.  The source compares
`Math.sqrt(gx*gx + gy*gy) > 50`; the square `gx*gx + gy*gy > 2500` is the
same condition (both sides nonnegative). -/
def detectEdges (g : PixelMap) : PixelMap :=
  ⟨idxMap (fun i =>
      let x := i % g.width
      let y := i / g.width
      if 1 ≤ x ∧ x + 1 < g.width ∧ 1 ≤ y ∧ y + 1 < g.height then
        let gx := sobelAt g sobelX x y
        let gy := sobelAt g sobelY x y
        if 2500 < gx * gx + gy * gy then 255 else 0
      else 0)
    (g.width * g.height),
   g.width, g.height⟩

/-- `ToothDetector.traceContour`: stack-based 4-neighbor flood fill over the
edge map, guarded by the shared `visited` set.  The JS `while` loop pops the
last pushed coordinate; the stack is modelled head-as-top, so the source's
`push([x+1,y],[x-1,y],[x,y+1],[x,y-1])` prepends `(x,y-1), (x,y+1), (x-1,y),
(x+1,y)` in that pop order.  Each iteration pops one entry and a new entry is
pushed only when an unvisited edge pixel is visited (at most four pushes per
visit), so `4 * width * height + 1` fuel strictly bounds the iteration count;
the fuel-exhaustion branch is unreachable at that fuel. -/
def traceContourLoop (edges : PixelMap) :
    ℕ → List (ℤ × ℤ) → List (ℕ × ℕ) → List ℕ → List (ℕ × ℕ) × List ℕ
  | 0, _, contour, visited => (contour, visited)
  | _ + 1, [], contour, visited => (contour, visited)
  | fuel + 1, (x, y) :: rest, contour, visited =>
    let idx := y * (edges.width : ℤ) + x
    if x < 0 ∨ (edges.width : ℤ) ≤ x ∨ y < 0 ∨ (edges.height : ℤ) ≤ y ∨
       edges.data.getD idx.toNat 0 ≠ 255 ∨ idx.toNat ∈ visited then
      traceContourLoop edges fuel rest contour visited
    else
      traceContourLoop edges fuel
        ((x, y - 1) :: (x, y + 1) :: (x - 1, y) :: (x + 1, y) :: rest)
        (contour ++ [(x.toNat, y.toNat)]) (idx.toNat :: visited)

/-- `ToothDetector.traceContour` entry point. -/
def traceContour (edges : PixelMap) (startX startY : ℕ) (visited : List ℕ) :
    List (ℕ × ℕ) × List ℕ :=
  traceContourLoop edges (4 * edges.width * edges.height + 1)
    [((startX : ℤ), (startY : ℤ))] [] visited

/-- `ToothDetector.findContours`: row-major scan (the source iterates `y`
then `x`; the single `List.range` index `i` with `y = i / width`,
`x = i % width` enumerates exactly that order); each unvisited edge pixel
starts a trace, and only contours with `length > 10` are pushed. -/
def findContours (edges : PixelMap) : List (List (ℕ × ℕ)) :=
  ((List.range (edges.height * edges.width)).foldl
    (fun st i =>
      let y := i / edges.width
      let x := i % edges.width
      let idx := y * edges.width + x
      if edges.data.getD idx 0 = 255 ∧ idx ∉ st.2 then
        let r := traceContour edges x y st.2
        if 10 < r.1.length then (st.1 ++ [r.1], r.2) else (st.1, r.2)
      else st)
    (([], []) : List (List (ℕ × ℕ)) × List ℕ)).1

/-- `ToothDetector.calculateArea`: shoelace formula over the point list
(wrapping around), `|sum| / 2`. -/
def calculateArea (contour : List (ℕ × ℕ)) : ℚ :=
  (((List.range contour.length).foldl (fun acc i =>
      let p1 := contour.getD i (0, 0)
      let p2 := contour.getD ((i + 1) % contour.length) (0, 0)
      acc + ((p1.1 : ℤ) * p2.2 - (p2.1 : ℤ) * p1.2)) 0).natAbs : ℚ) / 2

/-- `ToothDetector.calculatePerimeter`: sum of Euclidean segment lengths over
the point list (wrapping around); real-valued because of the square roots. -/
noncomputable def calculatePerimeter (contour : List (ℕ × ℕ)) : ℝ :=
  (List.range contour.length).foldl (fun acc i =>
    let p1 := contour.getD i (0, 0)
    let p2 := contour.getD ((i + 1) % contour.length) (0, 0)
    acc + Real.sqrt ((((p2.1 : ℤ) - p1.1) ^ 2 + ((p2.2 : ℤ) - p1.2) ^ 2 : ℤ) : ℝ)) 0

/-- `ToothDetector.isToothLike`: `500 < area < 50000` and
`0.3 < circularity < 0.8` with `circularity = 4π·area / perimeter²`.
The comparisons involve `π` and square roots, so this is a real-valued
predicate (the source's unused `imageData` parameter is kept). -/
def isToothLike (contour : List (ℕ × ℕ)) (imageData : ImageBuffer) : Prop :=
  let area := calculateArea contour
  let circularity : ℝ :=
    4 * Real.pi * (area : ℝ) / (calculatePerimeter contour * calculatePerimeter contour)
  500 < area ∧ area < 50000 ∧ (3/10 : ℝ) < circularity ∧ circularity < 8/10

/-- `ToothDetector.contourToBoundary` (`Math.min/max` over the coordinate
spreads; the contour is never empty when this is called, so the `getD 0`
defaults are unreachable). -/
def contourToBoundary (contour : List (ℕ × ℕ)) : ToothBoundary :=
  let minX := ((contour.map Prod.fst).min?).getD 0
  let maxX := ((contour.map Prod.fst).max?).getD 0
  let minY := ((contour.map Prod.snd).min?).getD 0
  let maxY := ((contour.map Prod.snd).max?).getD 0
  ⟨contour, ⟨minX, maxX, minY, maxY⟩,
   (((minX : ℚ) + maxX) / 2, ((minY : ℚ) + maxY) / 2)⟩

/-- `ToothDetector.filterToothContours`: keep the tooth-like contours, as
boundaries. -/
noncomputable def filterToothContours (contours : List (List (ℕ × ℕ)))
    (imageData : ImageBuffer) : List ToothBoundary :=
  (contours.filter (fun c =>
    @decide (isToothLike c imageData) (Classical.propDecidable _))).map contourToBoundary

/-- `ToothDetector.calculateConfidence`: the fixed lookup table
0 → 0, < 4 → 0.6, < 8 → 0.8, else 0.9. -/
def calculateConfidence (teeth : List ToothBoundary) : ℚ :=
  if teeth.length = 0 then 0
  else if teeth.length < 4 then 6/10
  else if teeth.length < 8 then 8/10
  else 9/10

/-- `ToothDetector.detect`: grayscale → Sobel edges → contour trace →
geometric filter → confidence. -/
noncomputable def toothDetect (img : ImageBuffer) : ToothResult :=
  let gray := convertToGrayscale img
  let edges := detectEdges gray
  let contours := findContours edges
  let teeth := filterToothContours contours img
  ⟨teeth, teeth.length, calculateConfidence teeth⟩

/-! ## Gum detector (`GumDetector`) -/

/-- `GumDetector.rgbToHue` (note: unlike the engine's `rgbToHsv`, there is no
negative-hue wrap here). -/
def rgbToHue (r g b : ℕ) : ℚ :=
  let r' : ℚ := r / 255
  let g' : ℚ := g / 255
  let b' : ℚ := b / 255
  let mx := max r' (max g' b')
  let mn := min r' (min g' b')
  let d := mx - mn
  let hue : ℚ :=
    if d = 0 then 0
    else if mx = r' then jsRem ((g' - b') / d) 6
    else if mx = g' then (b' - r') / d + 2
    else (r' - g') / d + 4
  hue * 60

/-- `GumDetector.rgbToSaturation`. -/
def rgbToSaturation (r g b : ℕ) : ℚ :=
  let r' : ℚ := r / 255
  let g' : ℚ := g / 255
  let b' : ℚ := b / 255
  let mx := max r' (max g' b')
  let mn := min r' (min g' b')
  if mx = 0 then 0 else (mx - mn) / mx

/-- `GumDetector.isGumColor`: hue in `[0, 30]`, saturation above 0.2,
average brightness in `(50, 200)`. -/
def isGumColor (r g b : ℕ) : Prop :=
  0 ≤ rgbToHue r g b ∧ rgbToHue r g b ≤ 30 ∧
  2/10 < rgbToSaturation r g b ∧
  50 < ((r : ℚ) + g + b) / 3 ∧ ((r : ℚ) + g + b) / 3 < 200

instance (r g b : ℕ) : Decidable (isGumColor r g b) := by
  unfold isGumColor; infer_instance

/-- The gum-classified points of `GumDetector.detectGumLine`, collected in
the source's row-major scan order. -/
def gumPoints (img : ImageBuffer) : List (ℕ × ℕ) :=
  (List.range (img.height * img.width)).foldl (fun acc i =>
    let y := i / img.width
    let x := i % img.width
    let idx := (y * img.width + x) * 4
    if isGumColor (byteAt img idx) (byteAt img (idx + 1)) (byteAt img (idx + 2)) then
      acc ++ [(x, y)]
    else acc) []

/-- `GumDetector.fitGumLine`: least-squares line through the points, `none`
when fewer than two points are classified.  (When every point shares one x
coordinate the JS division yields NaN/Infinity; in `ℚ` division by zero
yields 0.  No claim exercises that branch.) -/
def fitGumLine (points : List (ℕ × ℕ)) : Option GumLine :=
  if points.length < 2 then none
  else
    let n : ℚ := points.length
    let sumX : ℚ := (points.map (fun p => (p.1 : ℚ))).sum
    let sumY : ℚ := (points.map (fun p => (p.2 : ℚ))).sum
    let sumXY : ℚ := (points.map (fun p => (p.1 : ℚ) * p.2)).sum
    let sumX2 : ℚ := (points.map (fun p => (p.1 : ℚ) * p.1)).sum
    let slope := (n * sumXY - sumX * sumY) / (n * sumX2 - sumX * sumX)
    let intercept := (sumY - slope * sumX) / n
    some ⟨slope, intercept, points⟩

/-- `GumDetector.detect`: the fitted line (or `null`) with fixed
confidence 0.85. -/
def gumDetect (img : ImageBuffer) : GumResult :=
  ⟨fitGumLine (gumPoints img), 85/100⟩

/-! ## Smile zones, plaque, restorations -/

/-- `SmileZoneClassifier.classify`: pure geometric thirds partition with
fixed confidence 0.8. -/
def smileZoneClassify (img : ImageBuffer) : SmileZones :=
  let w : ℚ := img.width
  let h : ℚ := img.height
  ⟨⟨w / 3, h / 3, w / 3, h / 3⟩,
   ⟨0, h / 3, w / 3, h / 3⟩,
   ⟨2 * w / 3, h / 3, w / 3, h / 3⟩, 8/10⟩

/-- `PlaqueDetector.isPlaqueColor`: bright with a yellow tint between 10
and 40. -/
def isPlaqueColor (r g b : ℕ) : Prop :=
  180 < ((r : ℚ) + g + b) / 3 ∧
  10 < ((r : ℚ) + g) / 2 - b ∧ ((r : ℚ) + g) / 2 - b < 40

instance (r g b : ℕ) : Decidable (isPlaqueColor r g b) := by
  unfold isPlaqueColor; infer_instance

/-- `RestorationDetector.isRestorationMaterial`: very bright with low color
variance, or medium-bright with variance above 30. -/
def isRestorationMaterial (r g b : ℕ) : Prop :=
  let brightness : ℚ := ((r : ℚ) + g + b) / 3
  let colorVariance : ℤ := (max r (max g b) : ℤ) - (min r (min g b) : ℤ)
  (200 < brightness ∧ colorVariance < 20) ∨
  (150 < brightness ∧ brightness < 200 ∧ 30 < colorVariance)

instance (r g b : ℕ) : Decidable (isRestorationMaterial r g b) := by
  unfold isRestorationMaterial; infer_instance

/-- The 10-pixel-stride grid sample of `PlaqueDetector.detectPlaque` /
`RestorationDetector.detectRestorations`: `y` and `x` step by 10 from 0,
each matching pixel emits `{x, y, radius: 5}`. -/
def gridSample (img : ImageBuffer) (p : ℕ → ℕ → ℕ → Prop)
    [∀ r g b, Decidable (p r g b)] : List SamplePoint :=
  ((List.range img.height).filter (fun y => y % 10 = 0)).foldl (fun acc y =>
    ((List.range img.width).filter (fun x => x % 10 = 0)).foldl (fun acc2 x =>
      let idx := (y * img.width + x) * 4
      if p (byteAt img idx) (byteAt img (idx + 1)) (byteAt img (idx + 2)) then
        acc2 ++ [⟨x, y, 5⟩]
      else acc2) acc) []

/-- `PlaqueDetector.detect`: sample points with fixed confidence 0.7. -/
def plaqueDetect (img : ImageBuffer) : AreaResult :=
  ⟨gridSample img isPlaqueColor, 7/10⟩

/-- `RestorationDetector.detect`: sample points with fixed confidence 0.6. -/
def restorationDetect (img : ImageBuffer) : AreaResult :=
  ⟨gridSample img isRestorationMaterial, 6/10⟩

/-- `MLIntegration.detectDentalFeatures` (the initialized path): run all five
detectors and stamp the result with `Date.now()`, modelled by the explicit
clock argument `now`. -/
noncomputable def detectFeatures (img : ImageBuffer) (now : ℕ) : DetectionResult :=
  ⟨toothDetect img, gumDetect img, smileZoneClassify img,
   plaqueDetect img, restorationDetect img, now⟩

/-! ## Concrete inputs used by the claims -/

/-- The flat 4×4 all-white RGBA buffer (alpha 255 like every channel). -/
def white4 : ImageBuffer := ⟨4, 4, List.replicate 64 255⟩

/-- A 1×1 all-black pixel. -/
def black1 : ImageBuffer := ⟨1, 1, [0, 0, 0, 255]⟩

/-- A 1×1 warm specular-bright pixel (255, 255, 180). -/
def warm1 : ImageBuffer := ⟨1, 1, [255, 255, 180, 255]⟩

/-- Average RGB brightness of a pixel triple, as computed by the source's
`(r + g + b) / 3`. -/
def pixelBrightness (t : ℕ × ℕ × ℕ) : ℚ := ((t.1 : ℚ) + t.2.1 + t.2.2) / 3

/-- A 12×3 edge map whose only edge pixels form a 10-pixel horizontal run
(row 1, columns 1–10): one traced contour of exactly 10 points. -/
def edgeRun10 : PixelMap :=
  ⟨List.replicate 12 0 ++ (0 :: (List.replicate 10 255 ++ [0])) ++
    List.replicate 12 0, 12, 3⟩

/-- A 13×3 edge map whose only edge pixels form an 11-pixel horizontal run
(row 1, columns 1–11): one traced contour of 11 points. -/
def edgeRun11 : PixelMap :=
  ⟨List.replicate 13 0 ++ (0 :: (List.replicate 11 255 ++ [0])) ++
    List.replicate 13 0, 13, 3⟩

/-- Options with every stage flag false and every numeric knob present with
value 0 — the all-zero options record a caller would naturally pass as a
no-op. -/
def zeroKnobOpts : EnhanceOptions :=
  ⟨false, some 0, false, some 0, false, some 0, false, some 0, false⟩

/-- A truly inert options record: flags false, numeric knobs absent. -/
def absentKnobOpts : EnhanceOptions :=
  ⟨false, none, false, none, false, none, false, none, false⟩

/-- The no-op condition the pipeline actually requires: all five stage flags
false, the whitening/contrast/noise knobs absent or nonpositive, and the
specular knob absent (a present specular knob — even 0 — runs the specular
stage at the default level -20). -/
def noOpOptions (opts : EnhanceOptions) : Prop :=
  opts.smartWhitening = false ∧ opts.adaptiveContrast = false ∧
  opts.adaptiveNoise = false ∧ opts.smartSpecular = false ∧
  opts.colorCorrection = false ∧
  ¬ optPos opts.whitening ∧ ¬ optPos opts.contrast ∧ ¬ optPos opts.noise ∧
  opts.specular = none

/-- The catalog's A1 entry. -/
def shadeA1 : VitaShade := ⟨"A1", 255, 248, 240, "A1 - Lightest"⟩

/-- The catalog's B4 entry. -/
def shadeB4 : VitaShade := ⟨"B4", 255, 233, 205, "B4 - Dark"⟩

/-- A detection result holding one detected tooth whose bounding box is the
single pixel (0,0), as used to exercise region overlap. -/
def oneToothDetection : DetectionResult :=
  ⟨⟨[⟨[(0, 0)], ⟨0, 1, 0, 1⟩, (1/2, 1/2)⟩], 1, 6/10⟩,
   ⟨none, 85/100⟩,
   ⟨⟨1/3, 1/3, 1/3, 1/3⟩, ⟨0, 1/3, 1/3, 1/3⟩, ⟨2/3, 1/3, 1/3, 1/3⟩, 8/10⟩,
   ⟨[], 7/10⟩, ⟨[], 6/10⟩, 0⟩

end Dental

/-! # Theorems -/

namespace Dental

/-! ## Library-style helper lemmas -/

theorem idxMap_length (f : ℕ → ℕ) (len : ℕ) : (idxMap f len).length = len := by
  simp [idxMap]

theorem idxMap_getD (f : ℕ → ℕ) (len i : ℕ) (h : i < len) :
    (idxMap f len).getD i 0 = f i := by
  simp [idxMap, List.getD_eq_getElem?_getD, List.getElem?_map, List.getElem?_range h]

/-- Round-half-to-even never rounds down by more than one half. -/
theorem rhe_half_le (q : ℚ) : q - 1/2 ≤ (rhe q : ℚ) := by
  unfold rhe
  have h1 : (⌊q⌋ : ℚ) ≤ q := Int.floor_le q
  have h2 : q - 1 < (⌊q⌋ : ℚ) := by
    have := Int.lt_floor_add_one q
    linarith
  split_ifs with ha hb hc <;> push_cast <;> linarith

/-- A clamped-array store of a value at least `c` (for a byte `c ≤ 255`)
is at least `c`. -/
theorem u8_ge (c : ℕ) (q : ℚ) (hc : c ≤ 255) (h : (c : ℚ) ≤ q) : c ≤ u8 q := by
  unfold u8
  split_ifs with h0 h255
  · exact_mod_cast h.trans h0
  · exact hc
  · have hr : ((c : ℤ) : ℚ) < (rhe q : ℚ) + 1 := by
      have := rhe_half_le q
      push_cast
      linarith
    have hle : (c : ℤ) ≤ rhe q := Int.lt_add_one_iff.mp (by exact_mod_cast hr)
    calc c = ((c : ℤ)).toNat := by simp
      _ ≤ (rhe q).toNat := Int.toNat_le_toNat hle

/-- The strict-minimum scan of `findClosestVITAShade` only ever returns a
shade drawn from its accumulator or from the scanned list. -/
theorem shadeScan_mem (r g b : ℕ) (L : List VitaShade) :
    ∀ (l : List VitaShade) (acc : Option (VitaShade × ℤ)),
      (∀ p : VitaShade × ℤ, acc = some p → p.1 ∈ L) → (∀ a ∈ l, a ∈ L) →
      ∀ p : VitaShade × ℤ,
        l.foldl (fun acc s =>
          match acc with
          | none => some (s, shadeDistSq r g b s)
          | some (best, d) =>
            if shadeDistSq r g b s < d then some (s, shadeDistSq r g b s)
            else some (best, d)) acc = some p → p.1 ∈ L := by
  intro l
  induction l with
  | nil =>
    intro acc hacc _ p hp
    exact hacc p (by simpa using hp)
  | cons a t ih =>
    intro acc hacc hl p hp
    rw [List.foldl_cons] at hp
    refine ih _ ?_ (fun x hx => hl x (List.mem_cons_of_mem a hx)) p hp
    intro q hq
    cases acc with
    | none =>
      simp only at hq
      cases hq
      exact hl a (List.mem_cons_self a t)
    | some pr =>
      obtain ⟨best, d⟩ := pr
      have hb : best ∈ L := hacc (best, d) rfl
      by_cases hlt : shadeDistSq r g b a < d
      · simp only [hlt, if_true] at hq
        cases hq
        exact hl a (List.mem_cons_self a t)
      · simp only [hlt, if_false] at hq
        cases hq
        exact hb

/-- The contour-collecting fold of `findContours` preserves the invariant
that every collected contour has more than 10 points. -/
theorem findContours_fold_inv (edges : PixelMap) :
    ∀ (l : List ℕ) (st : List (List (ℕ × ℕ)) × List ℕ),
      (∀ c ∈ st.1, 10 < c.length) →
      ∀ c ∈ (l.foldl
        (fun st i =>
          let y := i / edges.width
          let x := i % edges.width
          let idx := y * edges.width + x
          if edges.data.getD idx 0 = 255 ∧ idx ∉ st.2 then
            let r := traceContour edges x y st.2
            if 10 < r.1.length then (st.1 ++ [r.1], r.2) else (st.1, r.2)
          else st) st).1, 10 < c.length := by
  intro l
  induction l with
  | nil => intro st h c hc; exact h c hc
  | cons i t ih =>
    intro st h c hc
    rw [List.foldl_cons] at hc
    refine ih _ ?_ c hc
    intro c' hc'
    by_cases hstep : edges.data.getD ((i / edges.width) * edges.width + i % edges.width) 0 = 255 ∧
        ((i / edges.width) * edges.width + i % edges.width) ∉ st.2
    · simp only [hstep, and_self, if_true] at hc'
      by_cases hlen :
          10 < (traceContour edges (i % edges.width) (i / edges.width) st.2).1.length
      · simp only [hlen, if_true] at hc'
        rcases List.mem_append.mp hc' with hmem | hmem
        · exact h c' hmem
        · rw [List.mem_singleton.mp hmem]
          exact hlen
      · simp only [hlen, if_false] at hc'
        exact h c' hc'
    · simp only [if_neg hstep] at hc'
      exact h c' hc'

/-! ## Claim C9 — contour size filter -/

/-- Claim C9 (amended): `findContours` keeps exactly the traced contours with
MORE than 10 points (`contour.length > 10` in the source); every contour it
returns has at least 11 points, so a 10-point contour is discarded. -/
theorem findContours_keeps_only_gt_ten (edges : PixelMap)
    (c : List (ℕ × ℕ)) (h : c ∈ findContours edges) : 10 < c.length := by
  unfold findContours at h
  exact findContours_fold_inv edges _ _ (by intro c hc; cases hc) c h

/-- Claim C9 counterexample: on a 12×3 edge map whose edge pixels form one
10-pixel run, the traced contour has exactly 10 points — `10 or more` per the
claim — yet `findContours` discards it and returns no contour (the source
keeps only `length > 10`). -/
theorem contour_ten_points_dropped :
    (traceContour edgeRun10 1 1 []).1.length = 10 ∧ findContours edgeRun10 = [] := by
  constructor <;> decide

/-- Witness for C9: an 11-point run is traced and kept, and the theorem
applies to it. -/
theorem findContours_keeps_witness :
    10 < ((findContours edgeRun11).getD 0 []).length :=
  findContours_keeps_only_gt_ten edgeRun11 ((findContours edgeRun11).getD 0 [])
    (by decide)

/-! ## Claim C5 — the VITA catalog -/

/-- Claim C5 counterexample: the static VITA catalog does not have 16
entries — `loadVITAShades` declares 17 (the A family alone has five:
A1, A2, A3, A3.5, A4). -/
theorem vitaCatalog_not_sixteen : vitaShades.length ≠ 16 := by decide

/-- Claim C5 (amended): the static VITA catalog has exactly 17 entries, all
shade codes in it are distinct, and `findClosestVITAShade`'s linear scan
always returns an entry of that catalog. -/
theorem vitaCatalog_seventeen_unique_scan :
    vitaShades.length = 17 ∧ (vitaShades.map VitaShade.code).Nodup ∧
    ∀ r g b s, findClosestVITAShade r g b = some s → s ∈ vitaShades := by
  refine ⟨by decide, by decide, ?_⟩
  intro r g b s hs
  unfold findClosestVITAShade at hs
  rcases Option.map_eq_some'.mp hs with ⟨p, hp, hfst⟩
  exact hfst ▸ shadeScan_mem r g b vitaShades vitaShades none
    (by intro p hp; cases hp) (fun a ha => ha) p hp

/-- Witness for C5: the scan at (255, 248, 240) returns the A1 entry, which
the theorem places in the catalog. -/
theorem vitaCatalog_scan_witness :
    (⟨"A1", 255, 248, 240, "A1 - Lightest"⟩ : VitaShade) ∈ vitaShades :=
  vitaCatalog_seventeen_unique_scan.2.2 255 248 240 _ (by decide)

/-! ## Claim C2 — whitening monotonicity -/

/-- Claim C2 counterexample: the pixel (255, 248, 240) — exactly shade A1 —
is tooth-classified, yet raising the whitening strength from 8 to 9 lowers
its brightness: at strength 8 the target stays A1 and the pixel is unchanged
(brightness 743/3), while at strength 9 the target steps from A1 to B4 —
the next entry of `shadeOrder`, which is darker than A1 — and the pixel
becomes (255, 247, 237) (brightness 739/3). -/
theorem whitening_brightness_not_monotone :
    pixelBrightness (whitenPixel 255 248 240 9) <
      pixelBrightness (whitenPixel 255 248 240 8) := by
  have ht : isToothPixel 255 248 240 := by
    norm_num [isToothPixel, rgbToHsv, jsRem, qtrunc, max_def, min_def]
  have hscan : findClosestVITAShade 255 248 240 = some shadeA1 := by decide
  have hmem : shadeA1.code ∈ shadeOrder := by decide
  have hidx : shadeOrder.indexOf shadeA1.code = 4 := by decide
  have h8 : whitenPixel 255 248 240 8 = (255, 248, 240) := by
    have hti : whiteningTargetIndex 4 (8/100) = 4 := by
      unfold whiteningTargetIndex shadeOrder
      norm_num
    have htgt : getTargetWhitenedShade shadeA1 (8/100) = shadeA1 := by
      simp only [getTargetWhitenedShade, if_pos hmem, hidx, hti]
      decide
    simp only [whitenPixel, hscan, if_pos ht, htgt]
    norm_num [interpolateColor, jsRound, u8, rhe, shadeA1]
    try decide
  have h9 : whitenPixel 255 248 240 9 = (255, 247, 237) := by
    have hti : whiteningTargetIndex 4 (9/100) = 5 := by
      unfold whiteningTargetIndex shadeOrder
      norm_num
    have htgt : getTargetWhitenedShade shadeA1 (9/100) = shadeB4 := by
      simp only [getTargetWhitenedShade, if_pos hmem, hidx, hti]
      decide
    simp only [whitenPixel, hscan, if_pos ht, htgt]
    norm_num [interpolateColor, jsRound, u8, rhe, shadeA1, shadeB4]
    try decide
  rw [h8, h9]
  norm_num [pixelBrightness]

/-- Claim C2 (amended): what the whitening step does guarantee is that the
whitening target never moves backwards and never leaves the catalog — for a
catalog shade and factors `0 ≤ f1 ≤ f2`, the target index at `f1` is at most
the target index at `f2`, and the target shade is a catalog entry.  Pixel
brightness itself is not monotone in the strength, because `shadeOrder`
interleaves the families (its step from A1 to B4 darkens). -/
theorem whitening_target_monotone_in_catalog :
    ∀ cur ∈ vitaShades, ∀ f1 f2 : ℚ, 0 ≤ f1 → f1 ≤ f2 →
      whiteningTargetIndex (shadeOrder.indexOf cur.code) f1 ≤
        whiteningTargetIndex (shadeOrder.indexOf cur.code) f2 ∧
      getTargetWhitenedShade cur f1 ∈ vitaShades := by
  intro cur hcur f1 f2 hf1 hf12
  have hmem : cur.code ∈ shadeOrder := by
    have hall : ∀ s ∈ vitaShades, s.code ∈ shadeOrder := by decide
    exact hall cur hcur
  constructor
  · unfold whiteningTargetIndex
    refine min_le_min (add_le_add_left ?_ _) le_rfl
    refine Int.floor_le_floor (mul_le_mul_of_nonneg_right hf12 ?_)
    have h2 : ((shadeOrder.indexOf cur.code : ℚ)) + 1 ≤ (shadeOrder.length : ℚ) := by
      exact_mod_cast List.indexOf_lt_length.mpr hmem
    push_cast
    linarith
  · simp only [getTargetWhitenedShade, if_pos hmem]
    cases hget : shadeOrder.get?
        (whiteningTargetIndex (shadeOrder.indexOf cur.code) f1).toNat with
    | none => simpa using hcur
    | some key =>
      cases hfind : vitaShades.find? (fun s => s.code == key) with
      | none => simpa [hfind] using hcur
      | some s =>
        simp only [hfind, Option.getD_some]
        exact List.mem_of_find?_eq_some hfind

/-- Witness for C2 (amended): the A1 entry at factors 0 ≤ 1. -/
theorem whitening_target_monotone_witness :
    whiteningTargetIndex (shadeOrder.indexOf shadeA1.code) 0 ≤
      whiteningTargetIndex (shadeOrder.indexOf shadeA1.code) 1 ∧
    getTargetWhitenedShade shadeA1 0 ∈ vitaShades :=
  whitening_target_monotone_in_catalog shadeA1 (by decide) 0 1
    (by norm_num) (by norm_num)

/-! ## Claim C10 — specular-control direction -/

/-- Claim C10: pixels with average brightness at most 200 pass the specular
stage unchanged at any level; for brighter pixels a negative level (as all
built-in presets use) never decreases any channel — so never decreases
brightness — and in general strictly brightens, as at (255, 255, 210) with
level -15, where the output is strictly brighter than the input. -/
theorem specular_negative_level_brightens :
    (∀ (r g b : ℕ) (level : ℚ), r ≤ 255 → g ≤ 255 → b ≤ 255 →
      (((r : ℚ) + g + b) / 3 ≤ 200 → specularPixel r g b level = (r, g, b)) ∧
      (200 < ((r : ℚ) + g + b) / 3 → level < 0 →
        r ≤ (specularPixel r g b level).1 ∧
        g ≤ (specularPixel r g b level).2.1 ∧
        b ≤ (specularPixel r g b level).2.2 ∧
        pixelBrightness (r, g, b) ≤ pixelBrightness (specularPixel r g b level))) ∧
    pixelBrightness (255, 255, 210) <
      pixelBrightness (specularPixel 255 255 210 (-15)) := by
  constructor
  · intro r g b level hr hg hb
    constructor
    · intro hle
      simp only [specularPixel]
      rw [if_neg (not_lt.mpr hle)]
    · intro hgt hlevel
      have hBpos : (0 : ℚ) < ((r : ℚ) + g + b) / 3 := lt_trans (by norm_num) hgt
      have hscale : (1 : ℚ) ≤
          (((r : ℚ) + g + b) / 3 - (((r : ℚ) + g + b) / 3 - 200) *
            (level / 100 * (((r : ℚ) + g + b) / 3 - 200) / 55)) /
          (((r : ℚ) + g + b) / 3) := by
        rw [le_div_iff hBpos, one_mul]
        have hd : (0 : ℚ) < ((r : ℚ) + g + b) / 3 - 200 := by linarith
        have h1 : level / 100 ≤ 0 := by linarith
        have h2 : level / 100 * (((r : ℚ) + g + b) / 3 - 200) ≤ 0 :=
          mul_nonpos_iff.mpr (Or.inr ⟨h1, le_of_lt hd⟩)
        have h3 : level / 100 * (((r : ℚ) + g + b) / 3 - 200) / 55 ≤ 0 := by
          linarith
        nlinarith [h3, hd]
      have hch : ∀ c : ℕ, c ≤ 255 → c ≤ u8 ((c : ℚ) *
          ((((r : ℚ) + g + b) / 3 - (((r : ℚ) + g + b) / 3 - 200) *
            (level / 100 * (((r : ℚ) + g + b) / 3 - 200) / 55)) /
          (((r : ℚ) + g + b) / 3))) := by
        intro c hc
        exact u8_ge c _ hc (le_mul_of_one_le_right (by positivity) hscale)
      have hrw : specularPixel r g b level =
          (u8 ((r : ℚ) * ((((r : ℚ) + g + b) / 3 - (((r : ℚ) + g + b) / 3 - 200) *
              (level / 100 * (((r : ℚ) + g + b) / 3 - 200) / 55)) /
            (((r : ℚ) + g + b) / 3))),
           u8 ((g : ℚ) * ((((r : ℚ) + g + b) / 3 - (((r : ℚ) + g + b) / 3 - 200) *
              (level / 100 * (((r : ℚ) + g + b) / 3 - 200) / 55)) /
            (((r : ℚ) + g + b) / 3))),
           u8 ((b : ℚ) * ((((r : ℚ) + g + b) / 3 - (((r : ℚ) + g + b) / 3 - 200) *
              (level / 100 * (((r : ℚ) + g + b) / 3 - 200) / 55)) /
            (((r : ℚ) + g + b) / 3)))) := by
        simp only [specularPixel]
        rw [if_pos hgt]
      refine ⟨?_, ?_, ?_, ?_⟩
      · rw [hrw]; exact hch r hr
      · rw [hrw]; exact hch g hg
      · rw [hrw]; exact hch b hb
      · rw [hrw]
        simp only [pixelBrightness]
        have h1 := hch r hr
        have h2 := hch g hg
        have h3 := hch b hb
        have c1 : ((r : ℚ)) ≤ (u8 ((r : ℚ) * _) : ℚ) := Nat.cast_le.mpr h1
        have c2 : ((g : ℚ)) ≤ (u8 ((g : ℚ) * _) : ℚ) := Nat.cast_le.mpr h2
        have c3 : ((b : ℚ)) ≤ (u8 ((b : ℚ) * _) : ℚ) := Nat.cast_le.mpr h3
        linarith
  · have heval : specularPixel 255 255 210 (-15) = (255, 255, 214) := by
      simp only [specularPixel]
      norm_num [u8, rhe]
      try decide
    rw [heval]
    norm_num [pixelBrightness]

/-- Witness for C10: the unchanged branch at (100, 100, 100) and the
channel bound at (255, 255, 210), level -15, via the theorem. -/
theorem specular_negative_level_witness :
    specularPixel 100 100 100 (-15) = (100, 100, 100) ∧
    210 ≤ (specularPixel 255 255 210 (-15)).2.2 :=
  ⟨(specular_negative_level_brightens.1 100 100 100 (-15) (by norm_num)
      (by norm_num) (by norm_num)).1 (by norm_num),
   ((specular_negative_level_brightens.1 255 255 210 (-15) (by norm_num)
      (by norm_num) (by norm_num)).2 (by norm_num) (by norm_num)).2.2.1⟩

/-! ## Claim C4 — detector failure policy -/

/-- Claim C4 counterexample: on the 1×1 all-black buffer the gum detector
classifies no point and returns a `null` line — yet its confidence is the
fixed 0.85, not the claimed 0. -/
theorem gum_confidence_not_zero_on_nothing :
    (gumDetect black1).line = none ∧ (gumDetect black1).confidence ≠ 0 := by
  have hng : ¬ isGumColor 0 0 0 := by
    norm_num [isGumColor, rgbToHue, rgbToSaturation, jsRem, qtrunc, max_def, min_def]
  have hr1 : List.range 1 = [0] := by decide
  have hpts : gumPoints black1 = [] := by
    simp [gumPoints, black1, byteAt, hr1, hng]
  constructor
  · simp [gumDetect, hpts, fitGumLine]
  · simp [gumDetect]

/-- Claim C4 (amended): detectors never throw when nothing is found (all are
total functions here), and they return empty or null results — but only the
tooth detector reports confidence 0 in that case; the gum, plaque and
restoration detectors return their fixed confidences 0.85, 0.7 and 0.6 even
when nothing is found. -/
theorem detectors_nothing_found_policy (img : ImageBuffer) :
    ((toothDetect img).boundaries = [] → (toothDetect img).confidence = 0) ∧
    ((gumPoints img).length < 2 → (gumDetect img).line = none) ∧
    (gumDetect img).confidence = 85/100 ∧
    (plaqueDetect img).confidence = 7/10 ∧
    (restorationDetect img).confidence = 6/10 := by
  refine ⟨?_, ?_, rfl, rfl, rfl⟩
  · intro h
    unfold toothDetect at h ⊢
    simp only at h ⊢
    rw [h]
    norm_num [calculateConfidence]
  · intro h
    unfold gumDetect fitGumLine
    simp only
    rw [if_pos h]

/-- Witness for C4 (amended): the 1×1 all-black buffer has no tooth
boundaries and no gum points, and the theorem applies. -/
theorem detectors_nothing_found_witness :
    (toothDetect black1).confidence = 0 ∧ (gumDetect black1).line = none := by
  have hgray : convertToGrayscale black1 = ⟨[0], 1, 1⟩ := by
    have hr1 : List.range 1 = [0] := by decide
    simp [convertToGrayscale, idxMap, black1, byteAt, hr1]
    norm_num [u8]
  have hedges : detectEdges ⟨[0], 1, 1⟩ = ⟨[0], 1, 1⟩ := by decide
  have hcont : findContours ⟨[0], 1, 1⟩ = [] := by decide
  have hb : (toothDetect black1).boundaries = [] := by
    unfold toothDetect
    simp only [hgray, hedges, hcont]
    rfl
  have hng : ¬ isGumColor 0 0 0 := by
    norm_num [isGumColor, rgbToHue, rgbToSaturation, jsRem, qtrunc, max_def, min_def]
  have hpts : gumPoints black1 = [] := by
    simp [gumPoints, black1, byteAt, (by decide : List.range 1 = [0]), hng]
  exact ⟨(detectors_nothing_found_policy black1).1 hb,
    (detectors_nothing_found_policy black1).2.1 (by rw [hpts]; decide)⟩

/-! ## Claim C6 — no-op idempotence -/

/-- Claim C6 counterexample: with every stage flag false and every numeric
knob present with value 0 — all stage flags false, as the claim requires —
the pipeline is not a no-op: `options.specular !== undefined` holds, so the
specular stage runs at the `||`-default level -20 and brightens the
specular 1×1 pixel (255, 255, 180) to (255, 255, 183). -/
theorem zero_knob_options_not_noop :
    applySmartEnhancement warm1 none zeroKnobOpts ≠ Except.ok warm1 := by
  have hsp : specularPixel 255 255 180 (-20) = (255, 255, 183) := by
    simp only [specularPixel]
    norm_num [u8, rhe]
    try decide
  have hr4 : List.range 4 = [0, 1, 2, 3] := by decide
  have hstage : applySmartSpecularControl warm1 (-20) = ⟨1, 1, [255, 255, 183, 255]⟩ := by
    simp [applySmartSpecularControl, mapPixels, idxMap, warm1, byteAt, hr4, hsp]
  have heval : applySmartEnhancement warm1 none zeroKnobOpts =
      Except.ok ⟨1, 1, [255, 255, 183, 255]⟩ := by
    unfold applySmartEnhancement
    rw [if_pos (by decide : validImageData warm1)]
    simp only [zeroKnobOpts]
    simp [optPos, numOr, hstage]
  rw [heval]
  intro h
  have := congrArg (fun e => match e with | Except.ok b => b.data | _ => []) h
  simp [warm1] at this

/-- Claim C6 (amended): the pipeline is a byte-for-byte no-op, and hence
idempotent, only for options with all five stage flags false, the
whitening/contrast/noise knobs absent or nonpositive, AND the specular knob
absent — a present specular knob (even 0) runs the specular stage at the
default level -20. -/
theorem noop_options_identity_idempotent (img : ImageBuffer)
    (d : Option DetectionResult) (opts : EnhanceOptions)
    (hv : validImageData img) (hno : noOpOptions opts) :
    applySmartEnhancement img d opts = Except.ok img ∧
    (applySmartEnhancement img d opts).bind
      (fun im => applySmartEnhancement im d opts) =
      applySmartEnhancement img d opts := by
  obtain ⟨h1, h2, h3, h4, h5, h6, h7, h8, h9⟩ := hno
  have he : applySmartEnhancement img d opts = Except.ok img := by
    unfold applySmartEnhancement
    rw [if_pos hv]
    simp [h1, h2, h3, h4, h5, h6, h7, h8, h9]
  refine ⟨he, ?_⟩
  rw [he]
  simpa using he

/-- Witness for C6 (amended): flags false and knobs absent on the 1×1 black
buffer. -/
theorem noop_options_witness :
    applySmartEnhancement black1 none absentKnobOpts = Except.ok black1 :=
  (noop_options_identity_idempotent black1 none absentKnobOpts (by decide)
    (by constructor <;> simp [absentKnobOpts, optPos])).1

/-! ## Claim C7 — determinism of the core -/

/-- Claim C7 counterexample: two calls to `detectFeatures` on the identical
`ImageBuffer` do not return identical `DetectionResult`s, because the result
embeds the wall clock (`timestamp: Date.now()`): calls at clock 0 and
clock 1 differ. -/
theorem detect_results_not_identical_across_calls :
    detectFeatures white4 0 ≠ detectFeatures white4 1 := by
  intro h
  have := congrArg DetectionResult.timestamp h
  simp [detectFeatures] at this

/-- Claim C7 (amended): the core is deterministic in the image — every field
of `detectFeatures` except `timestamp` depends only on the input buffer, so
two calls agree on all feature results; and `findClosestVITAShade` on
identical input returns the identical shade. -/
theorem detect_deterministic_except_timestamp :
    ∀ (img : ImageBuffer) (t1 t2 : ℕ),
      (detectFeatures img t1).teeth = (detectFeatures img t2).teeth ∧
      (detectFeatures img t1).gums = (detectFeatures img t2).gums ∧
      (detectFeatures img t1).smileZones = (detectFeatures img t2).smileZones ∧
      (detectFeatures img t1).plaque = (detectFeatures img t2).plaque ∧
      (detectFeatures img t1).restorations = (detectFeatures img t2).restorations ∧
      ∀ r g b, findClosestVITAShade r g b = findClosestVITAShade r g b :=
  fun _ _ _ => ⟨rfl, rfl, rfl, rfl, rfl, fun _ _ _ => rfl⟩

/-! ## Claim C8 — tooth detection postcondition -/

/-- Claim C8: for every buffer and clock, `detectFeatures` returns a result
with `teeth.count = teeth.boundaries.length`, the teeth confidence given by
the fixed table (0 → 0, < 4 → 0.6, < 8 → 0.8, else 0.9), and every
sub-result confidence within [0, 1]. -/
theorem detect_postcondition_counts_confidences (img : ImageBuffer) (t : ℕ) :
    (detectFeatures img t).teeth.count =
      (detectFeatures img t).teeth.boundaries.length ∧
    (detectFeatures img t).teeth.confidence =
      (if (detectFeatures img t).teeth.count = 0 then 0
       else if (detectFeatures img t).teeth.count < 4 then 6/10
       else if (detectFeatures img t).teeth.count < 8 then 8/10
       else 9/10) ∧
    (0 ≤ (detectFeatures img t).teeth.confidence ∧
      (detectFeatures img t).teeth.confidence ≤ 1) ∧
    (0 ≤ (detectFeatures img t).gums.confidence ∧
      (detectFeatures img t).gums.confidence ≤ 1) ∧
    (0 ≤ (detectFeatures img t).smileZones.confidence ∧
      (detectFeatures img t).smileZones.confidence ≤ 1) ∧
    (0 ≤ (detectFeatures img t).plaque.confidence ∧
      (detectFeatures img t).plaque.confidence ≤ 1) ∧
    (0 ≤ (detectFeatures img t).restorations.confidence ∧
      (detectFeatures img t).restorations.confidence ≤ 1) := by
  refine ⟨rfl, rfl, ?_, by norm_num [detectFeatures, gumDetect],
    by norm_num [detectFeatures, smileZoneClassify],
    by norm_num [detectFeatures, plaqueDetect],
    by norm_num [detectFeatures, restorationDetect]⟩
  unfold detectFeatures toothDetect calculateConfidence
  simp only
  split_ifs <;> norm_num

/-! ## Claim C3 — adaptive-contrast region application -/

/-- Any single regional-contrast application writes 0 to every color byte
its region covers: the factor destructured from `region.bounds` is
`undefined`, the arithmetic is NaN throughout, and the clamped store of NaN
is 0. -/
theorem regionalContrast_zero (dat : List ℕ) (w : ℕ) (region : Region) (f : ℚ)
    (idx : ℕ) (hidx : idx < dat.length) (hc : idx % 4 < 3)
    (h1 : ⌊region.bounds.minY⌋ ≤ ((idx / 4 / w : ℕ) : ℤ))
    (h2 : ((idx / 4 / w : ℕ) : ℤ) < ⌊region.bounds.maxY⌋)
    (h3 : ⌊region.bounds.minX⌋ ≤ ((idx / 4 % w : ℕ) : ℤ))
    (h4 : ((idx / 4 % w : ℕ) : ℤ) < ⌊region.bounds.maxX⌋) :
    (applyRegionalContrast dat w region f).getD idx 0 = 0 := by
  unfold applyRegionalContrast
  dsimp only
  rw [idxMap_getD _ _ _ hidx]
  rw [if_pos ⟨hc, h1, h2, h3, h4⟩]
  rfl

/-- Regional contrast preserves the byte-array length, and so does folding
it over a region list. -/
theorem contrast_foldl_length (w : ℕ) (f : ℚ) :
    ∀ (rs : List Region) (dat : List ℕ),
      (rs.foldl (fun dat r => applyRegionalContrast dat w r f) dat).length =
        dat.length := by
  intro rs
  induction rs with
  | nil => intro dat; rfl
  | cons r t ih =>
    intro dat
    rw [List.foldl_cons, ih]
    simp [applyRegionalContrast, idxMap]

/-- Claim C3: under the source's `contrastFactor` destructuring slip, no
pixel receives the 1.2× tooth factor or the 1.0× background factor — for
every image, detection result and strength, the adaptive-contrast stage sets
every color byte (in particular a pixel inside both a tooth bounding box and
the background region) to 0, because the background region is applied last
and covers the whole image with a NaN factor. -/
theorem adaptive_contrast_nan_zeroes (img : ImageBuffer)
    (d : Option DetectionResult) (strength : ℚ) (idx : ℕ)
    (hlen : img.data.length = 4 * img.width * img.height)
    (hidx : idx < img.data.length) (hc : idx % 4 < 3) :
    (applyAdaptiveContrast img d strength).data.getD idx 0 = 0 := by
  have hw : 0 < img.width := by
    rcases Nat.eq_zero_or_pos img.width with h | h
    · exfalso
      rw [h] at hlen
      omega
    · exact h
  have h44 : 4 * img.width * img.height = img.width * img.height * 4 := by ring
  have hidx4 : idx < img.width * img.height * 4 := by
    rw [← h44, ← hlen]
    exact hidx
  have hp : idx / 4 < img.width * img.height :=
    (Nat.div_lt_iff_lt_mul (by norm_num)).mpr hidx4
  have hy : idx / 4 / img.width < img.height := by
    refine (Nat.div_lt_iff_lt_mul hw).mpr ?_
    rw [mul_comm img.width img.height] at hp
    exact hp
  have hx : idx / 4 % img.width < img.width := Nat.mod_lt _ hw
  unfold applyAdaptiveContrast
  dsimp only
  obtain ⟨front, hfr⟩ : ∃ front,
      createEnhancementRegions img.width img.height d = front ++
        [⟨"background", ⟨0, (img.width : ℚ), 0, (img.height : ℚ)⟩, 1⟩] :=
    ⟨_, rfl⟩
  rw [hfr, List.foldl_append, List.foldl_cons, List.foldl_nil]
  apply regionalContrast_zero
  · rw [contrast_foldl_length]
    exact hidx
  · exact hc
  · rw [show (⟨"background", ⟨0, (img.width : ℚ), 0, (img.height : ℚ)⟩, 1⟩ :
        Region).bounds.minY = (0 : ℚ) from rfl, Int.floor_zero]
    positivity
  · rw [show (⟨"background", ⟨0, (img.width : ℚ), 0, (img.height : ℚ)⟩, 1⟩ :
        Region).bounds.maxY = (img.height : ℚ) from rfl, Int.floor_natCast]
    exact_mod_cast hy
  · rw [show (⟨"background", ⟨0, (img.width : ℚ), 0, (img.height : ℚ)⟩, 1⟩ :
        Region).bounds.minX = (0 : ℚ) from rfl, Int.floor_zero]
    positivity
  · rw [show (⟨"background", ⟨0, (img.width : ℚ), 0, (img.height : ℚ)⟩, 1⟩ :
        Region).bounds.maxX = (img.width : ℚ) from rfl, Int.floor_natCast]
    exact_mod_cast hx

/-- Witness for C3: a 1×1 buffer with one detected tooth covering pixel
(0, 0) at strength 25 — the pixel's red byte comes out 0, not a contrasted
value. -/
theorem adaptive_contrast_nan_witness :
    (applyAdaptiveContrast warm1 (some oneToothDetection) 25).data.getD 0 0 = 0 :=
  adaptive_contrast_nan_zeroes warm1 (some oneToothDetection) 25 0
    (by decide) (by decide) (by decide)

/-! ## Claim C1 — the flat all-white end-to-end example -/

/-- Claim C1: on the flat 4×4 all-white buffer, detection behaves as
claimed — `teeth.count = 0` and `gums.line = null` — and the whitening stage
of the `smartEnhance` preset leaves the buffer unchanged; but the pipeline
does NOT return the input: the adaptive-contrast stage (strength 25) zeroes
the color bytes (pixel 0's red byte becomes 0, not 255), and the full
`applySmartEnhancement` call then aborts in color correction with the
`ReferenceError` of `calculateWhiteBalance`. -/
theorem flat_white_end_to_end :
    (detectFeatures white4 0).teeth.count = 0 ∧
    (detectFeatures white4 0).gums.line = none ∧
    applySmartWhitening white4 30 = white4 ∧
    byteAt white4 0 = 255 ∧
    (applyAdaptiveContrast white4 none 25).data.getD 0 0 = 0 ∧
    applySmartEnhancement white4 none smartEnhanceOpts =
      Except.error "ReferenceError: data is not defined" := by
  have hbyte : ∀ i, i < 64 → byteAt white4 i = 255 := by
    intro i hi
    show (List.replicate 64 255).getD i 0 = 255
    rw [List.getD_eq_getElem?_getD, List.getElem?_replicate, if_pos hi]
    rfl
  have hgray : convertToGrayscale white4 = ⟨List.replicate 16 255, 4, 4⟩ := by
    unfold convertToGrayscale
    simp only [PixelMap.mk.injEq]
    refine ⟨?_, rfl, rfl⟩
    refine List.eq_replicate_iff.mpr ⟨by simp [idxMap, white4], ?_⟩
    intro b hb
    obtain ⟨p, hp, rfl⟩ := List.mem_map.mp hb
    have hp16 : p < 16 := by
      have := List.mem_range.mp hp
      simpa [white4] using this
    rw [hbyte (4 * p) (by omega), hbyte (4 * p + 1) (by omega),
      hbyte (4 * p + 2) (by omega)]
    norm_num [u8]
  have hedges : detectEdges ⟨List.replicate 16 255, 4, 4⟩ =
      ⟨List.replicate 16 0, 4, 4⟩ := by decide
  have hcont : findContours ⟨List.replicate 16 0, 4, 4⟩ = [] := by decide
  have hcount : (detectFeatures white4 0).teeth.count = 0 := by
    show (toothDetect white4).count = 0
    unfold toothDetect
    simp only [hgray, hedges, hcont]
    rfl
  have hr16 : List.range 16 = [0, 1, 2, 3, 4, 5, 6, 7, 8, 9, 10, 11, 12, 13, 14, 15] := by
    decide
  have hngw : ¬ isGumColor 255 255 255 := by
    norm_num [isGumColor, rgbToHue, rgbToSaturation, jsRem, qtrunc, max_def, min_def]
  have hptsw : gumPoints white4 = [] := by
    simp [gumPoints, white4, byteAt, hr16, hngw, List.getD_eq_getElem?_getD,
      List.getElem?_replicate]
  have hline : (detectFeatures white4 0).gums.line = none := by
    show (gumDetect white4).line = none
    simp [gumDetect, hptsw, fitGumLine]
  have hnt : ¬ isToothPixel 255 255 255 := by
    norm_num [isToothPixel, rgbToHsv, jsRem, qtrunc, max_def, min_def]
  have hwp : whitenPixel 255 255 255 30 = (255, 255, 255) := by
    simp [whitenPixel, hnt]
  have hwhite : applySmartWhitening white4 30 = white4 := by
    unfold applySmartWhitening mapPixels
    conv_rhs => rw [show white4 = ImageBuffer.mk 4 4 (List.replicate 64 255) from rfl]
    simp only [ImageBuffer.mk.injEq]
    refine ⟨rfl, rfl, ?_⟩
    refine List.eq_replicate_iff.mpr ⟨by simp [idxMap, white4], ?_⟩
    intro b hb
    obtain ⟨idx, hidx, rfl⟩ := List.mem_map.mp hb
    have hi64 : idx < 64 := by
      have := List.mem_range.mp hidx
      simpa [white4] using this
    rw [hbyte (4 * (idx / 4)) (by omega), hbyte (4 * (idx / 4) + 1) (by omega),
      hbyte (4 * (idx / 4) + 2) (by omega), hbyte idx hi64, hwp]
    split_ifs <;> rfl
  have hczero : (applyAdaptiveContrast white4 none 25).data.getD 0 0 = 0 := by
    unfold applyAdaptiveContrast
    dsimp only
    rw [show createEnhancementRegions white4.width white4.height none =
      [(⟨"background", ⟨0, (white4.width : ℚ), 0, (white4.height : ℚ)⟩, 1⟩ :
        Region)] from rfl]
    rw [List.foldl_cons, List.foldl_nil]
    apply regionalContrast_zero
    · simp [white4]
    · norm_num
    · rw [show (⟨"background", ⟨0, (white4.width : ℚ), 0, (white4.height : ℚ)⟩, 1⟩ :
          Region).bounds.minY = (0 : ℚ) from rfl, Int.floor_zero]
      positivity
    · rw [show (⟨"background", ⟨0, (white4.width : ℚ), 0, (white4.height : ℚ)⟩, 1⟩ :
          Region).bounds.maxY = ((4 : ℕ) : ℚ) from rfl, Int.floor_natCast]
      decide
    · rw [show (⟨"background", ⟨0, (white4.width : ℚ), 0, (white4.height : ℚ)⟩, 1⟩ :
          Region).bounds.minX = (0 : ℚ) from rfl, Int.floor_zero]
      positivity
    · rw [show (⟨"background", ⟨0, (white4.width : ℚ), 0, (white4.height : ℚ)⟩, 1⟩ :
          Region).bounds.maxX = ((4 : ℕ) : ℚ) from rfl, Int.floor_natCast]
      decide
  have herr : applySmartEnhancement white4 none smartEnhanceOpts =
      Except.error "ReferenceError: data is not defined" := by
    unfold applySmartEnhancement
    rw [if_pos (by decide : validImageData white4)]
    simp only [smartEnhanceOpts]
    simp [optPos, applyColorCorrection, calculateWhiteBalance]
    rfl
  exact ⟨hcount, hline, hwhite, hbyte 0 (by omega), hczero, herr⟩

end Dental
